import Mathlib

/-
Verification development for the graph population engine in
`src/Knowledge_Graphs/graph_creator.py` (class `Neo4jGraphCreator`).

The Neo4j store is modelled as an explicit graph state: an append-only list
of typed nodes (a node's identity is its position in the list) and a list of
directed, string-kinded edges between node positions.  Each Python method
that runs a Cypher statement becomes a pure function on this state, following
standard Cypher semantics: `CREATE` appends unconditionally, a sequence of
`MATCH` clauses produces one row per combination of matching bindings, and a
`CREATE` fed by matches fires once per row (so zero matches create nothing,
without error).

`ast.literal_eval` (Python standard library, external to the repository) is
kept abstract: the embedding column parser is a parameter
`litEval : String → Option (List ℚ)` where `none` models the exception the
call raises on malformed input.
-/

namespace GraphCreator

/-! ## Text predicates

The inference rules test `r.text =~ pattern` in Cypher, a full-string Java
regex match.  Every pattern in the source has the shape
`(?i)alt₁|alt₂|...` where the leading `(?i)` (ASCII-only case folding, as in
Java without `UNICODE_CASE`) scopes over all alternatives; an alternative
`.*word.*` is a containment test and an alternative `word.*` is a
starts-with test.  `.` not matching a newline is immaterial for the
single-line CSV texts and is not modelled.  Case folding is ASCII `toLower`
on both sides, matching Java's default `(?i)`. -/

def lowerChars (s : String) : List Char :=
  s.data.map Char.toLower

/-- Does `pat` occur as a contiguous run inside `s`? -/
def listContains (pat : List Char) : List Char → Bool
  | [] => pat.isEmpty
  | c :: t => pat.isPrefixOf (c :: t) || listContains pat t

/-- Case-insensitive (ASCII) substring test: models a `(?i).*pat.*` regex alternative. -/
def containsCI (s pat : String) : Bool :=
  listContains (lowerChars pat) (lowerChars s)

/-- Case-insensitive (ASCII) starts-with test: models a `(?i)pat.*` regex alternative. -/
def startsWithCI (s pat : String) : Bool :=
  (lowerChars pat).isPrefixOf (lowerChars s)

/-- `'(?i).*sistema deve.*|deve permitir.*|deve ter.*|deve fazer.*'`
(rule 1 of `create_smart_relationships`, graph_creator.py lines 649-655). -/
def matchesFunctionalPattern (s : String) : Bool :=
  containsCI s "sistema deve" || startsWithCI s "deve permitir" ||
    startsWithCI s "deve ter" || startsWithCI s "deve fazer"

/-- `'(?i).*desempenho.*|segurança.*|usabilidade.*|disponibilidade.*|manutenibilidade.*'`
(rule 2, lines 657-663). -/
def matchesNonFunctionalPattern (s : String) : Bool :=
  containsCI s "desempenho" || startsWithCI s "segurança" ||
    startsWithCI s "usabilidade" || startsWithCI s "disponibilidade" ||
    startsWithCI s "manutenibilidade"

/-- `'(?i).*segurança.*|criptografar.*|autenticar.*|autorizar.*'`
(rule 3, lines 669-675). -/
def matchesSecurityPattern (s : String) : Bool :=
  containsCI s "segurança" || startsWithCI s "criptografar" ||
    startsWithCI s "autenticar" || startsWithCI s "autorizar"

/-! ## Data model

One structure per node label, carrying exactly the properties the Python
`CREATE` statements write.  The store-side timestamps (`created_at`,
`embedding_ts`, both `datetime()` evaluated inside the store) carry no
information relevant to any property and are omitted. -/

structure RequirementNode where
  req_id : String
  text : String
  summary : String
  type : String
  source : String
  domain : String
  embedding : List ℚ
  embedding_model : String
deriving DecidableEq

structure TechniqueNode where
  tech_id : String
  name : String
  description : String
  category : String
  source : String
  embedding : List ℚ
  embedding_model : String
deriving DecidableEq

structure InstructionNode where
  instr_id : String
  text : String
  context : String
  source : String
  embedding : List ℚ
  embedding_model : String
deriving DecidableEq

structure ConceptNode where
  concept_id : String
  name : String
  definition : String
  source : String
  embedding : List ℚ
  embedding_model : String
deriving DecidableEq

/-- A node in the store, tagged by its Neo4j label. -/
inductive Node where
  | requirement (r : RequirementNode)
  | technique (t : TechniqueNode)
  | instruction (i : InstructionNode)
  | concept (c : ConceptNode)
deriving DecidableEq

/-- The business identifier property of a node (`req_id`/`tech_id`/`instr_id`/`concept_id`). -/
def Node.nodeId : Node → String
  | .requirement r => r.req_id
  | .technique t => t.tech_id
  | .instruction i => i.instr_id
  | .concept c => c.concept_id

def Node.isRequirement : Node → Bool
  | .requirement _ => true
  | _ => false

def Node.isTechnique : Node → Bool
  | .technique _ => true
  | _ => false

/-- `MATCH (r:Requirement {req_id: x})` as a node predicate. -/
def isReqWithId (x : Node) (rid : String) : Bool :=
  match x with
  | .requirement r => r.req_id == rid
  | _ => false

def isTechWithId (x : Node) (tid : String) : Bool :=
  match x with
  | .technique t => t.tech_id == tid
  | _ => false

def isInstrWithId (x : Node) (iid : String) : Bool :=
  match x with
  | .instruction i => i.instr_id == iid
  | _ => false

def isConcWithId (x : Node) (cid : String) : Bool :=
  match x with
  | .concept c => c.concept_id == cid
  | _ => false

/-- `WHERE r.text =~ p` on a `MATCH (r:Requirement)` row: the node is a
Requirement and its `text` property satisfies the pattern. -/
def reqTextMatches (p : String → Bool) : Node → Bool
  | .requirement r => p r.text
  | _ => false

/-- A directed, typed edge between two node positions. -/
structure Edge where
  kind : String
  src : Nat
  dst : Nat
deriving DecidableEq

/-- The whole database: nodes are append-only (a node's identity is its
position in `nodes`), edges point between positions. -/
structure GraphState where
  nodes : List Node
  edges : List Edge
deriving DecidableEq

/-- Positions of the nodes satisfying a predicate: the row set of a single
`MATCH` clause. -/
def matchingIdx (g : GraphState) (p : Node → Bool) : List Nat :=
  (List.range g.nodes.length).filter fun i => ((g.nodes[i]?).map p).getD false

/-! ## Graph session manager

`connect` (lines 27-41): assigns `self.driver = GraphDatabase.driver(...)`
and then runs a `RETURN 1` test query; any exception is caught, printed, and
turned into a `False` return.  The external Neo4j client constructs the
driver object lazily, so an unreachable server or rejected credentials do
not raise in the constructor but in the test query — after `self.driver`
has already been assigned.  `ConnectOutcome` enumerates the three
behaviours of that external boundary. -/

/-- The external Neo4j driver object, opaque except for being open or closed
(the client documents `Driver.close` as idempotent). -/
structure Driver where
  isOpen : Bool
deriving DecidableEq

structure Neo4jGraphCreator where
  uri : String
  username : String
  password : String
  database : String
  driver : Option Driver
deriving DecidableEq

inductive ConnectOutcome where
  /-- `GraphDatabase.driver(...)` itself raises (e.g. malformed URI):
  `self.driver` is never assigned. -/
  | driverFail
  /-- The driver object is constructed but the `RETURN 1` test query raises
  (server unreachable, credentials rejected): `self.driver` is assigned. -/
  | testFail
  | ok
deriving DecidableEq

/-- `connect` (lines 27-41): returns the updated manager and the boolean the
method returns (`True` on success, `False` when the caught exception path
runs). -/
def connect (m : Neo4jGraphCreator) (o : ConnectOutcome) : Neo4jGraphCreator × Bool :=
  match o with
  | .driverFail => (m, false)
  | .testFail => ({ m with driver := some ⟨true⟩ }, false)
  | .ok => ({ m with driver := some ⟨true⟩ }, true)

/-- `close` (lines 43-47): `if self.driver: self.driver.close()`.  The
driver attribute is left in place (not reset to `None`); the external
`Driver.close` is idempotent, modelled as setting `isOpen := false`. -/
def close (m : Neo4jGraphCreator) : Neo4jGraphCreator :=
  match m.driver with
  | none => m
  | some _ => { m with driver := some ⟨false⟩ }

/-- `clear_database` (lines 49-53): `MATCH (n) DETACH DELETE n`.  Returns
the emptied graph together with the number of deletions performed
(nodes plus the edges detached with them). -/
def clear_database (g : GraphState) : GraphState × Nat :=
  (⟨[], []⟩, g.nodes.length + g.edges.length)

/-! ## Entity store

One creation method per label (lines 64-186).  Each runs a single `CREATE`
statement: unconditional append, no uniqueness check.  Arguments are passed
positionally in the Python parameter order; callers that rely on a Python
default pass that default explicitly here (defaults: `summary/source/domain/
description/category/context = ""`, `req_type = "funcional"`,
`embedding = None`, `embedding_model = "text-embedding-3-small"`).
`embedding or []` maps `None` to the empty vector. -/

def create_requirement (g : GraphState) (req_id text summary req_type source domain : String)
    (embedding : Option (List ℚ)) (embedding_model : String) : GraphState :=
  { g with nodes := g.nodes ++ [Node.requirement
      { req_id := req_id, text := text, summary := summary, type := req_type,
        source := source, domain := domain, embedding := embedding.getD [],
        embedding_model := embedding_model }] }

def create_technique (g : GraphState) (tech_id name description category source : String)
    (embedding : Option (List ℚ)) (embedding_model : String) : GraphState :=
  { g with nodes := g.nodes ++ [Node.technique
      { tech_id := tech_id, name := name, description := description,
        category := category, source := source, embedding := embedding.getD [],
        embedding_model := embedding_model }] }

def create_instruction (g : GraphState) (instr_id text context source : String)
    (embedding : Option (List ℚ)) (embedding_model : String) : GraphState :=
  { g with nodes := g.nodes ++ [Node.instruction
      { instr_id := instr_id, text := text, context := context, source := source,
        embedding := embedding.getD [], embedding_model := embedding_model }] }

def create_concept (g : GraphState) (concept_id name definition source : String)
    (embedding : Option (List ℚ)) (embedding_model : String) : GraphState :=
  { g with nodes := g.nodes ++ [Node.concept
      { concept_id := concept_id, name := name, definition := definition,
        source := source, embedding := embedding.getD [],
        embedding_model := embedding_model }] }

/-! ## Explicit relationship creation

Each method (lines 189-253) runs `MATCH src MATCH dst CREATE edge`: Cypher
produces one row per combination of source and destination matches and the
`CREATE` fires once per row.  When either `MATCH` finds nothing the row set
is empty and nothing is created — no error is raised. -/

/-- `MATCH (s | ps) MATCH (t | pt) CREATE (s)-[:kind]->(t)`. -/
def createRel (g : GraphState) (kind : String) (ps pt : Node → Bool) : GraphState :=
  { g with edges := g.edges ++
      (matchingIdx g ps).flatMap fun s => (matchingIdx g pt).map fun t => Edge.mk kind s t }

/-- Lines 189-198. -/
def create_uses_technique_relationship (g : GraphState) (req_id tech_id : String) : GraphState :=
  createRel g "USES_TECHNIQUE" (isReqWithId · req_id) (isTechWithId · tech_id)

/-- Lines 200-209. -/
def create_refers_to_relationship (g : GraphState) (instr_id concept_id : String) : GraphState :=
  createRel g "REFERS_TO" (isInstrWithId · instr_id) (isConcWithId · concept_id)

/-- Lines 211-220. -/
def create_is_related_to_relationship (g : GraphState) (req_id concept_id : String) : GraphState :=
  createRel g "IS_RELATED_TO" (isReqWithId · req_id) (isConcWithId · concept_id)

/-- Lines 222-231. -/
def create_applies_to_relationship (g : GraphState) (tech_id concept_id : String) : GraphState :=
  createRel g "APPLIES_TO" (isTechWithId · tech_id) (isConcWithId · concept_id)

/-- Lines 233-242. -/
def create_suggests_technique_relationship (g : GraphState) (instr_id tech_id : String) : GraphState :=
  createRel g "SUGGESTS_TECHNIQUE" (isInstrWithId · instr_id) (isTechWithId · tech_id)

/-- Lines 244-253. -/
def create_supported_by_relationship (g : GraphState) (req_id instr_id : String) : GraphState :=
  createRel g "SUPPORTED_BY" (isReqWithId · req_id) (isInstrWithId · instr_id)

/-! ## CSV ingestion (`populate_from_csv`, lines 447-494)

A `csv.DictReader` row, as consulted by the code: `row.get('user_story','')`,
`row.get('acceptance_criteria','')`, `row.get('embedding','[]')`.  `none`
models an absent key (column missing from the header). -/

structure Row where
  user_story : Option String
  acceptance_criteria : Option String
  embedding : Option String
deriving DecidableEq

/-- Python `f"REQ_{row_num:04d}"` for a natural row number: decimal digits,
zero-padded on the left to at least four characters. -/
def pad4 (n : Nat) : String :=
  let s := toString n
  if s.length < 4 then String.mk (List.replicate (4 - s.length) '0') ++ s else s

/-- Lines 466-467: `embedding_str = row.get('embedding', '[]')` followed by
`ast.literal_eval(embedding_str) if embedding_str else []`.  The empty
string is falsy, so it bypasses the parser and yields the empty vector;
`none` from `litEval` models the exception `ast.literal_eval` raises on
malformed input. -/
def rowEmbedding (litEval : String → Option (List ℚ)) (row : Row) : Option (List ℚ) :=
  let es := row.embedding.getD "[]"
  if es == "" then some [] else litEval es

/-- The per-row loop of lines 463-489, with the 1-based `row_num` from
`enumerate(reader, start=1)` and the `requirements_created` counter.  The
per-row `try/except` turns a parser exception into `continue`: the row is
skipped, no node is created, and `row_num` still advances. -/
def processRows (litEval : String → Option (List ℚ)) :
    GraphState → List Row → Nat → Nat → GraphState × Nat
  | g, [], _, created => (g, created)
  | g, row :: rest, rowNum, created =>
    match rowEmbedding litEval row with
    | none => processRows litEval g rest (rowNum + 1) created
    | some emb =>
        processRows litEval
          (create_requirement g ("REQ_" ++ pad4 rowNum) (row.user_story.getD "")
            (row.acceptance_criteria.getD "") "funcional" "csv_dataset" "user_story"
            (some emb) "text-embedding-3-small")
          rest (rowNum + 1) (created + 1)

/-- `populate_from_csv` on the path where the CSV file exists and has been
parsed into `rows`; returns the final state with `requirements_created`.
(When the file is missing the method returns without touching the graph;
no claim concerns that path.) -/
def populate_from_csv (litEval : String → Option (List ℚ)) (g : GraphState)
    (rows : List Row) : GraphState × Nat :=
  processRows litEval g rows 1 0

/-- The `Requirement` node that `populate_from_csv` builds for a row whose
embedding parsed to `emb` at 1-based row number `n` (the `req_data` dict of
lines 470-479 fed through `create_requirement`). -/
def csvRequirementNode (row : Row) (n : Nat) (emb : List ℚ) : Node :=
  Node.requirement
    { req_id := "REQ_" ++ pad4 n, text := row.user_story.getD "",
      summary := row.acceptance_criteria.getD "", type := "funcional",
      source := "csv_dataset", domain := "user_story", embedding := emb,
      embedding_model := "text-embedding-3-small" }

/-- The nodes `populate_from_csv` appends for a row list starting at row
number `n`: one `csvRequirementNode` per row whose embedding field parses,
rows with a failing parse contributing nothing. -/
def csvNodes (litEval : String → Option (List ℚ)) : List Row → Nat → List Node
  | [], _ => []
  | row :: rest, n =>
    match rowEmbedding litEval row with
    | none => csvNodes litEval rest (n + 1)
    | some emb => csvRequirementNode row n emb :: csvNodes litEval rest (n + 1)

/-- The 1-based row numbers of the rows whose embedding field parses
(the rows for which a node is created), starting the numbering at `n`. -/
def okRowNums (litEval : String → Option (List ℚ)) : List Row → Nat → List Nat
  | [], _ => []
  | row :: rest, n =>
    match rowEmbedding litEval row with
    | none => okRowNums litEval rest (n + 1)
    | some _ => n :: okRowNums litEval rest (n + 1)

/-! ## Rule-based inference (`create_smart_relationships`, lines 637-732)

Nine `session.run` calls in a fixed textual order, all inside one
`try/except`.  Each call is modelled as a state transformer; the failure
variant below models a store exception in the middle of the table. -/

/-- Rule 1 (lines 649-655): requirements whose text matches the functional
pattern get `IS_A` edges to every concept `CONC_001`. -/
def rule_classify_functional (g : GraphState) : GraphState :=
  createRel g "IS_A" (reqTextMatches matchesFunctionalPattern) (isConcWithId · "CONC_001")

/-- Rule 2 (lines 657-663): non-functional pattern, `IS_A` to `CONC_002`. -/
def rule_classify_nonfunctional (g : GraphState) : GraphState :=
  createRel g "IS_A" (reqTextMatches matchesNonFunctionalPattern) (isConcWithId · "CONC_002")

/-- Rule 3 (lines 669-675): security pattern, `USES_TECHNIQUE` to `TECH_005`. -/
def rule_security_uses_domain_analysis (g : GraphState) : GraphState :=
  createRel g "USES_TECHNIQUE" (reqTextMatches matchesSecurityPattern) (isTechWithId · "TECH_005")

/-- Rule 4 (lines 677-683):
`MATCH (r:Requirement)-[:IS_A]->(:Concept {concept_id: "CONC_001"})
 MATCH (t:Technique {tech_id: "TECH_001"}) CREATE (r)-[:USES_TECHNIQUE]->(t)`.
One row per `IS_A` path binding (so per qualifying edge) per matching
technique. -/
def rule_functional_uses_interview (g : GraphState) : GraphState :=
  let srcs := (g.edges.filter fun e =>
    e.kind == "IS_A" && ((g.nodes[e.src]?).map Node.isRequirement).getD false &&
      ((g.nodes[e.dst]?).map (isConcWithId · "CONC_001")).getD false).map Edge.src
  { g with edges := g.edges ++
      (srcs.flatMap fun s => (matchingIdx g (isTechWithId · "TECH_001")).map
        fun t => Edge.mk "USES_TECHNIQUE" s t) }

/-- Rule 5 (lines 688-693): `INST_002 -[:APPLIES_TO]-> CONC_005`. -/
def rule_inst2_applies_validation (g : GraphState) : GraphState :=
  createRel g "APPLIES_TO" (isInstrWithId · "INST_002") (isConcWithId · "CONC_005")

/-- Rule 6 (lines 695-700): `INST_003 -[:APPLIES_TO]-> CONC_004`. -/
def rule_inst3_applies_elicitation (g : GraphState) : GraphState :=
  createRel g "APPLIES_TO" (isInstrWithId · "INST_003") (isConcWithId · "CONC_004")

/-- Rule 7 (lines 705-710): every technique `-[:FOLLOWS]-> INST_002`. -/
def rule_techniques_follow_inst2 (g : GraphState) : GraphState :=
  createRel g "FOLLOWS" Node.isTechnique (isInstrWithId · "INST_002")

/-- Rule 8 (lines 715-720): every requirement `-[:SUPPORTED_BY]-> INST_001`. -/
def rule_supported_by_inst1 (g : GraphState) : GraphState :=
  createRel g "SUPPORTED_BY" Node.isRequirement (isInstrWithId · "INST_001")

/-- Rule 9 (lines 722-727): every requirement `-[:SUPPORTED_BY]-> INST_004`. -/
def rule_supported_by_inst4 (g : GraphState) : GraphState :=
  createRel g "SUPPORTED_BY" Node.isRequirement (isInstrWithId · "INST_004")

/-- The rule table, in the textual order of the nine `session.run` calls. -/
def ruleTable : List (GraphState → GraphState) :=
  [rule_classify_functional, rule_classify_nonfunctional,
   rule_security_uses_domain_analysis, rule_functional_uses_interview,
   rule_inst2_applies_validation, rule_inst3_applies_elicitation,
   rule_techniques_follow_inst2, rule_supported_by_inst1, rule_supported_by_inst4]

/-- Applies rules in order.  `failAt = some k` models a store exception
raised by the k-th (0-based) `session.run` call: that call's auto-commit
transaction rolls back (no effect), and the single `try/except` wrapping
the whole method catches the exception, so no later rule runs either. -/
def applyRules : List (GraphState → GraphState) → Option Nat → GraphState → GraphState
  | [], _, g => g
  | _ :: _, some 0, g => g
  | r :: rest, some (k + 1), g => applyRules rest (some k) (r g)
  | r :: rest, none, g => applyRules rest none (r g)

/-- `create_smart_relationships` on the happy path: the nine rules applied
top to bottom, exactly once each. -/
def create_smart_relationships (g : GraphState) : GraphState :=
  applyRules ruleTable none g

/-- `create_smart_relationships` when the store fails during one rule. -/
def create_smart_relationships_with_failure (failAt : Option Nat) (g : GraphState) : GraphState :=
  applyRules ruleTable failAt g

/-! ## Orchestration (`create_static_nodes`, `populate_complete_graph`, `main`) -/

/-- `create_static_nodes` (lines 513-634): the fixed seed tables of five
techniques, five instructions and five concepts, inserted through the
entity-store operations (absent Python defaults passed explicitly). -/
def create_static_nodes (g : GraphState) : GraphState :=
  let g := create_technique g "TECH_001" "Entrevista"
    "Técnica de elicitação através de conversas estruturadas com stakeholders"
    "Elicitação" "literatura" none "text-embedding-3-small"
  let g := create_technique g "TECH_002" "Questionário"
    "Coleta de requisitos através de formulários estruturados"
    "Elicitação" "literatura" none "text-embedding-3-small"
  let g := create_technique g "TECH_003" "Casos de Uso"
    "Documentação de cenários de interação usuário-sistema"
    "Documentação" "literatura" none "text-embedding-3-small"
  let g := create_technique g "TECH_004" "Protótipos"
    "Criação de modelos visuais do sistema para validação"
    "Validação" "literatura" none "text-embedding-3-small"
  let g := create_technique g "TECH_005" "Análise de Domínio"
    "Estudo do contexto e domínio do problema"
    "Análise" "literatura" none "text-embedding-3-small"
  let g := create_instruction g "INST_001"
    "Priorize requisitos por valor de negócio e impacto no usuário"
    "Durante a elicitação e análise de requisitos" "boas_práticas" none "text-embedding-3-small"
  let g := create_instruction g "INST_002"
    "Valide sempre os requisitos com os stakeholders envolvidos"
    "Após elicitação e antes da especificação" "boas_práticas" none "text-embedding-3-small"
  let g := create_instruction g "INST_003"
    "Mantenha rastreabilidade completa dos requisitos"
    "Durante todo o ciclo de vida do projeto" "boas_práticas" none "text-embedding-3-small"
  let g := create_instruction g "INST_004"
    "Use linguagem clara e não ambígua na especificação"
    "Durante a documentação dos requisitos" "boas_práticas" none "text-embedding-3-small"
  let g := create_instruction g "INST_005"
    "Considere restrições técnicas e de negócio"
    "Durante análise de viabilidade" "boas_práticas" none "text-embedding-3-small"
  let g := create_concept g "CONC_001" "Requisito Funcional"
    "Descreve o que o sistema deve fazer ou quais funções deve executar"
    "literatura" none "text-embedding-3-small"
  let g := create_concept g "CONC_002" "Requisito Não-Funcional"
    "Descreve como o sistema deve se comportar em termos de qualidade"
    "literatura" none "text-embedding-3-small"
  let g := create_concept g "CONC_003" "Stakeholder"
    "Pessoa, grupo ou organização com interesse no sistema"
    "literatura" none "text-embedding-3-small"
  let g := create_concept g "CONC_004" "Elicitação de Requisitos"
    "Processo de descoberta e coleta de requisitos do sistema"
    "literatura" none "text-embedding-3-small"
  create_concept g "CONC_005" "Validação de Requisitos"
    "Verificação se os requisitos estão corretos e completos"
    "literatura" none "text-embedding-3-small"

/-- `populate_complete_graph` (lines 497-510): CSV requirements, then the
static seed nodes, then one pass of the rule table. -/
def populate_complete_graph (litEval : String → Option (List ℚ)) (g : GraphState)
    (rows : List Row) : GraphState :=
  create_smart_relationships (create_static_nodes (populate_from_csv litEval g rows).1)

/-- The stages of `main` (lines 735-765), in program order. -/
inductive Stage where
  | sConnect
  | sClear
  | sPopulateCsv
  | sStaticNodes
  | sSmartRelationships
deriving DecidableEq

structure RunResult where
  /-- The stages `main` attempts, in order (a stage is attempted when its
  method is entered, whether or not it completes). -/
  stages : List Stage
  /-- Did an unhandled exception propagate out of the `with` block? -/
  crashed : Bool
  /-- Was `close` invoked (`__exit__` runs on every path)? -/
  closed : Bool
deriving DecidableEq

/-- Control flow of `main` (lines 735-765).  `__enter__` calls `connect`
and discards its boolean; `main` only tests `if not graph.driver`.  When the
driver object exists but the connection is actually broken
(`ConnectOutcome.testFail`), the guard passes and `clear_database` is
attempted; its `session.run` raises, the exception propagates out of `main`
(there is no surrounding handler), and `__exit__` still calls `close`. -/
def mainRun (o : ConnectOutcome) : RunResult :=
  let m0 : Neo4jGraphCreator := ⟨"", "", "", "", none⟩
  let m1 := (connect m0 o).1
  if m1.driver.isSome then
    match o with
    | .testFail => { stages := [.sConnect, .sClear], crashed := true, closed := true }
    | _ => { stages := [.sConnect, .sClear, .sPopulateCsv, .sStaticNodes,
               .sSmartRelationships], crashed := false, closed := true }
  else
    { stages := [.sConnect], crashed := false, closed := true }

/-! ## Concrete data used by witnesses and counterexamples -/

/-- A requirement as ingested from the scenario row
`{text: "O sistema deve permitir login"}`. -/
def exReq : RequirementNode :=
  { req_id := "REQ_0001", text := "O sistema deve permitir login", summary := "",
    type := "funcional", source := "csv_dataset", domain := "user_story",
    embedding := [], embedding_model := "text-embedding-3-small" }

def exConc : ConceptNode :=
  { concept_id := "CONC_001", name := "Requisito Funcional",
    definition := "Descreve o que o sistema deve fazer ou quais funções deve executar",
    source := "literatura", embedding := [], embedding_model := "text-embedding-3-small" }

def exTech : TechniqueNode :=
  { tech_id := "TECH_001", name := "Entrevista",
    description := "Técnica de elicitação através de conversas estruturadas com stakeholders",
    category := "Elicitação", source := "literatura", embedding := [],
    embedding_model := "text-embedding-3-small" }

/-- A small store holding one functional-pattern requirement, the concept
`CONC_001` and the technique `TECH_001`, with no edges yet. -/
def exampleGraph : GraphState :=
  ⟨[Node.requirement exReq, Node.concept exConc, Node.technique exTech], []⟩

def exInstr : InstructionNode :=
  { instr_id := "INST_002",
    text := "Valide sempre os requisitos com os stakeholders envolvidos",
    context := "Após elicitação e antes da especificação", source := "boas_práticas",
    embedding := [], embedding_model := "text-embedding-3-small" }

/-- A store with one node of each label, for exercising the explicit
relationship operations. -/
def relGraph : GraphState :=
  ⟨[Node.requirement exReq, Node.technique exTech, Node.instruction exInstr,
    Node.concept exConc], []⟩

/-- A concrete stand-in for `ast.literal_eval` that agrees with it on the
strings the counterexample uses: `"[]"` parses to the empty list, and
`"not a list"` raises (`none`). -/
def litEvalEx (s : String) : Option (List ℚ) :=
  if s == "[]" then some [] else none

/-- A CSV row whose embedding column holds a malformed vector string. -/
def badRow : Row :=
  { user_story := some "As a user, I want to log in", acceptance_criteria := some "AC",
    embedding := some "not a list" }

/-- A CSV row with no embedding column at all (`row.get` falls back to `'[]'`). -/
def goodRow : Row :=
  { user_story := some "O sistema deve permitir login", acceptance_criteria := some "",
    embedding := none }

/-- A CSV row whose embedding column is present but empty (falsy in Python,
so the parser is bypassed and the vector defaults to empty). -/
def emptyFieldRow : Row :=
  { user_story := some "O sistema deve ter relatórios", acceptance_criteria := some "AC",
    embedding := some "" }

/-- How many nodes of the store satisfy a predicate. -/
def countNodes (g : GraphState) (p : Node → Bool) : Nat :=
  (g.nodes.filter p).length

/-! ## Helper lemmas -/

theorem createRel_nodes (g : GraphState) (kind : String) (ps pt : Node → Bool) :
    (createRel g kind ps pt).nodes = g.nodes := rfl

theorem createRel_edges_mono {g : GraphState} (kind : String) (ps pt : Node → Bool)
    {e : Edge} (h : e ∈ g.edges) : e ∈ (createRel g kind ps pt).edges :=
  List.mem_append_left _ h

theorem mem_matchingIdx {g : GraphState} {p : Node → Bool} {i : Nat} {n : Node}
    (hn : g.nodes[i]? = some n) (hp : p n = true) : i ∈ matchingIdx g p := by
  have hlt : i < g.nodes.length := (List.getElem?_eq_some.mp hn).1
  refine List.mem_filter.mpr ⟨List.mem_range.mpr hlt, ?_⟩
  simp [hn, hp]

theorem createRel_mem {g : GraphState} {kind : String} {ps pt : Node → Bool} {s t : Nat}
    (hs : s ∈ matchingIdx g ps) (ht : t ∈ matchingIdx g pt) :
    Edge.mk kind s t ∈ (createRel g kind ps pt).edges := by
  apply List.mem_append_right
  exact List.mem_flatMap.mpr ⟨s, hs, List.mem_map.mpr ⟨t, ht, rfl⟩⟩

theorem flatMap_const_nil {α β : Type} (l : List α) :
    (l.flatMap fun _ => ([] : List β)) = [] := by
  induction l with
  | nil => rfl
  | cons a t ih => simp [ih]

theorem createRel_nomatch {g : GraphState} {kind : String} {ps pt : Node → Bool}
    (h : matchingIdx g ps = [] ∨ matchingIdx g pt = []) :
    createRel g kind ps pt = g := by
  rcases h with h | h <;> simp [createRel, h, flatMap_const_nil]

theorem createRel_unique {g : GraphState} {kind : String} {ps pt : Node → Bool} {r t : Nat}
    (hs : matchingIdx g ps = [r]) (ht : matchingIdx g pt = [t]) :
    (createRel g kind ps pt).edges = g.edges ++ [Edge.mk kind r t] := by
  simp [createRel, hs, ht]

theorem rule4_edges_mono {g : GraphState} {e : Edge} (h : e ∈ g.edges) :
    e ∈ (rule_functional_uses_interview g).edges :=
  List.mem_append_left _ h

theorem rule4_creates {g : GraphState} {i c t : Nat}
    (he : Edge.mk "IS_A" i c ∈ g.edges)
    (hi : ((g.nodes[i]?).map Node.isRequirement).getD false = true)
    (hc : ((g.nodes[c]?).map (isConcWithId · "CONC_001")).getD false = true)
    (ht : t ∈ matchingIdx g (isTechWithId · "TECH_001")) :
    Edge.mk "USES_TECHNIQUE" i t ∈ (rule_functional_uses_interview g).edges := by
  apply List.mem_append_right
  refine List.mem_flatMap.mpr ⟨i, ?_, List.mem_map.mpr ⟨t, ht, rfl⟩⟩
  refine List.mem_map.mpr ⟨Edge.mk "IS_A" i c, ?_, rfl⟩
  refine List.mem_filter.mpr ⟨he, ?_⟩
  simp [hi, hc]

theorem create_smart_relationships_eq (g : GraphState) :
    create_smart_relationships g =
      rule_supported_by_inst4 (rule_supported_by_inst1 (rule_techniques_follow_inst2
        (rule_inst3_applies_elicitation (rule_inst2_applies_validation
          (rule_functional_uses_interview (rule_security_uses_domain_analysis
            (rule_classify_nonfunctional (rule_classify_functional g)))))))) := rfl

theorem applyRules_failAt (rs : List (GraphState → GraphState)) :
    ∀ (k : Nat) (g : GraphState), applyRules rs (some k) g = applyRules (rs.take k) none g := by
  induction rs with
  | nil => intro k g; cases k <;> rfl
  | cons r rest ih =>
    intro k g
    cases k with
    | zero => rfl
    | succ k => exact ih k (r g)

theorem processRows_spec (litEval : String → Option (List ℚ)) (rows : List Row) :
    ∀ (g : GraphState) (n c : Nat),
      (processRows litEval g rows n c).1.nodes = g.nodes ++ csvNodes litEval rows n ∧
      (processRows litEval g rows n c).1.edges = g.edges ∧
      (processRows litEval g rows n c).2 = c + (csvNodes litEval rows n).length := by
  induction rows with
  | nil => intro g n c; simp [processRows, csvNodes]
  | cons row rest ih =>
    intro g n c
    cases hre : rowEmbedding litEval row with
    | none => simpa [processRows, csvNodes, hre] using ih g (n + 1) c
    | some emb =>
      have h := ih (create_requirement g ("REQ_" ++ pad4 n) (row.user_story.getD "")
        (row.acceptance_criteria.getD "") "funcional" "csv_dataset" "user_story"
        (some emb) "text-embedding-3-small") (n + 1) (c + 1)
      simp only [processRows, hre, csvNodes] at h ⊢
      refine ⟨?_, ?_, ?_⟩
      · rw [h.1]
        simp [create_requirement, csvRequirementNode]
      · exact h.2.1
      · rw [h.2.2, List.length_cons]
        omega

theorem csvNodes_nodeId (litEval : String → Option (List ℚ)) (rows : List Row) :
    ∀ n : Nat, (csvNodes litEval rows n).map Node.nodeId =
      (okRowNums litEval rows n).map (fun k => "REQ_" ++ pad4 k) := by
  induction rows with
  | nil => intro n; rfl
  | cons row rest ih =>
    intro n
    cases hre : rowEmbedding litEval row <;>
      simp [csvNodes, okRowNums, hre, csvRequirementNode, Node.nodeId, ih]

theorem csvNodes_length (litEval : String → Option (List ℚ)) (rows : List Row) :
    ∀ n : Nat, (csvNodes litEval rows n).length =
      rows.countP (fun r => (rowEmbedding litEval r).isSome) := by
  induction rows with
  | nil => intro n; rfl
  | cons row rest ih =>
    intro n
    cases hre : rowEmbedding litEval row <;>
      simp [csvNodes, List.countP_cons, hre, ih]

theorem csvNodes_fixed_metadata (litEval : String → Option (List ℚ)) (rows : List Row) :
    ∀ n : Nat, ∀ x ∈ csvNodes litEval rows n,
      ∃ r : RequirementNode, x = Node.requirement r ∧ r.type = "funcional" ∧
        r.domain = "user_story" ∧ r.source = "csv_dataset" ∧
        r.embedding_model = "text-embedding-3-small" := by
  induction rows with
  | nil => intro n x hx; simp [csvNodes] at hx
  | cons row rest ih =>
    intro n x hx
    cases hre : rowEmbedding litEval row with
    | none =>
      rw [csvNodes, hre] at hx
      exact ih (n + 1) x hx
    | some emb =>
      rw [csvNodes, hre] at hx
      rcases List.mem_cons.mp hx with h | h
      · exact ⟨_, h, rfl, rfl, rfl, rfl⟩
      · exact ih (n + 1) x h

/-! ## Claim theorems -/

/-- Claim C1: the rule table of `create_smart_relationships` is evaluated
top to bottom exactly once, and the `USES_TECHNIQUE` rule (rule 4) may
depend on the `IS_A` edge created by the functional-classification rule
(rule 1).  Hence for every requirement whose text matches the functional
pattern, given that the concept `CONC_001` and the technique `TECH_001`
exist in the store, after one full pass both the `IS_A` edge to that
concept and the `USES_TECHNIQUE` edge to that technique exist. -/
theorem claim_rule_order_functional_then_interview
    (g : GraphState) (i c t : Nat) (r : RequirementNode) (cn : ConceptNode)
    (tn : TechniqueNode)
    (hi : g.nodes[i]? = some (Node.requirement r))
    (hr : matchesFunctionalPattern r.text = true)
    (hc : g.nodes[c]? = some (Node.concept cn)) (hcid : cn.concept_id = "CONC_001")
    (ht : g.nodes[t]? = some (Node.technique tn)) (htid : tn.tech_id = "TECH_001") :
    Edge.mk "IS_A" i c ∈ (create_smart_relationships g).edges ∧
      Edge.mk "USES_TECHNIQUE" i t ∈ (create_smart_relationships g).edges := by
  rw [create_smart_relationships_eq]
  have h1 : Edge.mk "IS_A" i c ∈ (rule_classify_functional g).edges :=
    createRel_mem (mem_matchingIdx hi (by simp [reqTextMatches, hr]))
      (mem_matchingIdx hc (by simp [isConcWithId, hcid]))
  have h3 : Edge.mk "IS_A" i c ∈
      (rule_security_uses_domain_analysis (rule_classify_nonfunctional
        (rule_classify_functional g))).edges :=
    createRel_edges_mono _ _ _ (createRel_edges_mono _ _ _ h1)
  have hig : ((g.nodes[i]?).map Node.isRequirement).getD false = true := by
    simp [hi, Node.isRequirement]
  have hcg : ((g.nodes[c]?).map (isConcWithId · "CONC_001")).getD false = true := by
    simp [hc, isConcWithId, hcid]
  have htg : t ∈ matchingIdx g (isTechWithId · "TECH_001") :=
    mem_matchingIdx ht (by simp [isTechWithId, htid])
  have h4 : Edge.mk "USES_TECHNIQUE" i t ∈
      (rule_functional_uses_interview (rule_security_uses_domain_analysis
        (rule_classify_nonfunctional (rule_classify_functional g)))).edges :=
    rule4_creates h3 hig hcg htg
  constructor
  · exact createRel_edges_mono _ _ _ (createRel_edges_mono _ _ _ (createRel_edges_mono _ _ _
      (createRel_edges_mono _ _ _ (createRel_edges_mono _ _ _ (rule4_edges_mono h3)))))
  · exact createRel_edges_mono _ _ _ (createRel_edges_mono _ _ _ (createRel_edges_mono _ _ _
      (createRel_edges_mono _ _ _ (createRel_edges_mono _ _ _ h4))))

/-- Witness for C1: the scenario requirement "O sistema deve permitir login"
in a store holding `CONC_001` and `TECH_001` receives both edges. -/
theorem claim_rule_order_functional_then_interview_witness :
    matchesFunctionalPattern exReq.text = true ∧
    Edge.mk "IS_A" 0 1 ∈ (create_smart_relationships exampleGraph).edges ∧
    Edge.mk "USES_TECHNIQUE" 0 2 ∈ (create_smart_relationships exampleGraph).edges := by
  have h := claim_rule_order_functional_then_interview exampleGraph 0 1 2 exReq exConc exTech
    rfl (by decide) rfl rfl rfl rfl
  exact ⟨by decide, h.1, h.2⟩

/-- Claim C2 counterexample: a single row whose embedding field is malformed
(`ast.literal_eval` raises, modelled by the parser returning `none` on
`"not a list"`) is skipped entirely by `populate_from_csv`: no Requirement
node is created, so the node count (0) differs from the input row count (1),
contradicting the claim that the row is still emitted with an empty vector. -/
theorem claim_malformed_row_counterexample :
    (populate_from_csv litEvalEx ⟨[], []⟩ [badRow]).1.nodes.length ≠ [badRow].length ∧
    (populate_from_csv litEvalEx ⟨[], []⟩ [badRow]).1.nodes.length = 0 := by decide

/-- Claim C2 (amended): a row whose embedding field is *empty* (or whose
column is absent, the parser mapping `"[]"` to the empty vector) is still
emitted, producing a Requirement node with an empty embedding; but a row
whose embedding field is present and malformed is skipped — no node is
created for it — so the number of Requirement nodes created equals the
number of rows whose embedding field parses, not the number of input rows. -/
theorem claim_malformed_row_amended (litEval : String → Option (List ℚ))
    (g : GraphState) (rows : List Row) :
    (populate_from_csv litEval g rows).1.nodes = g.nodes ++ csvNodes litEval rows 1 ∧
    (populate_from_csv litEval g rows).1.nodes.length =
      g.nodes.length + rows.countP (fun r => (rowEmbedding litEval r).isSome) ∧
    (∀ (row : Row) (rest : List Row) (n : Nat), rowEmbedding litEval row = none →
      csvNodes litEval (row :: rest) n = csvNodes litEval rest (n + 1)) ∧
    (∀ (row : Row) (rest : List Row) (n : Nat), row.embedding.getD "[]" = "" →
      csvNodes litEval (row :: rest) n =
        csvRequirementNode row n [] :: csvNodes litEval rest (n + 1)) := by
  refine ⟨(processRows_spec litEval rows g 1 0).1, ?_, ?_, ?_⟩
  · rw [show (populate_from_csv litEval g rows).1.nodes =
        g.nodes ++ csvNodes litEval rows 1 from (processRows_spec litEval rows g 1 0).1]
    simp [csvNodes_length]
  · intro row rest n h
    simp [csvNodes, h]
  · intro row rest n h
    have : rowEmbedding litEval row = some [] := by
      simp [rowEmbedding, h]
    simp [csvNodes, this]

/-- Witness for the amended C2: with the concrete parser, a two-row file
whose first row has an empty embedding field and whose second is malformed
appends exactly the first row's node, built with the empty vector. -/
theorem claim_malformed_row_amended_witness :
    (populate_from_csv litEvalEx ⟨[], []⟩ [emptyFieldRow, badRow]).1.nodes =
      ([] : List Node) ++ csvNodes litEvalEx [emptyFieldRow, badRow] 1 ∧
    csvNodes litEvalEx (emptyFieldRow :: [badRow]) 1 =
      csvRequirementNode emptyFieldRow 1 [] :: csvNodes litEvalEx [badRow] 2 :=
  ⟨(claim_malformed_row_amended litEvalEx ⟨[], []⟩ [emptyFieldRow, badRow]).1,
   (claim_malformed_row_amended litEvalEx ⟨[], []⟩ [emptyFieldRow, badRow]).2.2.2
     emptyFieldRow [badRow] 1 (by decide)⟩

/-- Claim C3 counterexample: in a store where the functional-classification
rule (rule 1) fires and `TECH_001` exists, a store failure during rule 3
(0-based index 2) leaves the run with only rule 1's `IS_A` edge: rule 4 is
never attempted, although its precondition holds — on the happy path the
same store does receive the `USES_TECHNIQUE` edge.  This contradicts the
claim that every rule after the failing one is still attempted. -/
theorem claim_rule_failure_counterexample :
    (create_smart_relationships_with_failure (some 2) exampleGraph).edges =
      [Edge.mk "IS_A" 0 1] ∧
    Edge.mk "USES_TECHNIQUE" 0 2 ∈ (create_smart_relationships exampleGraph).edges := by
  decide

/-- Claim C3 (amended): `create_smart_relationships` wraps all nine rules in
a single exception handler, so a store failure during the k-th rule is
caught and logged but aborts the whole remainder of the pass: the rules
before the failing one keep their effect, and neither the failing rule nor
any later rule is applied; no exception propagates to the caller. -/
theorem claim_rule_failure_amended (g : GraphState) (k : Nat) :
    create_smart_relationships_with_failure (some k) g =
      applyRules (ruleTable.take k) none g ∧
    create_smart_relationships_with_failure none g = create_smart_relationships g :=
  ⟨applyRules_failAt ruleTable k g, rfl⟩

/-- Claim C4: each explicit relationship-creation method matches both
endpoints by identifier; if either identifier matches no node, the call
leaves the store unchanged (and, being a total function of the state,
raises nothing); if each identifier matches exactly one node, exactly one
edge of the named kind is appended between them, and the node set is
untouched. -/
theorem claim_explicit_relationship_soft_failure (g : GraphState) (rid tid iid cid : String) :
    (((matchingIdx g (isReqWithId · rid) = [] ∨ matchingIdx g (isTechWithId · tid) = []) →
        create_uses_technique_relationship g rid tid = g) ∧
      (∀ r t : Nat, matchingIdx g (isReqWithId · rid) = [r] →
        matchingIdx g (isTechWithId · tid) = [t] →
        (create_uses_technique_relationship g rid tid).edges =
          g.edges ++ [Edge.mk "USES_TECHNIQUE" r t] ∧
        (create_uses_technique_relationship g rid tid).nodes = g.nodes)) ∧
    (((matchingIdx g (isInstrWithId · iid) = [] ∨ matchingIdx g (isConcWithId · cid) = []) →
        create_refers_to_relationship g iid cid = g) ∧
      (∀ s t : Nat, matchingIdx g (isInstrWithId · iid) = [s] →
        matchingIdx g (isConcWithId · cid) = [t] →
        (create_refers_to_relationship g iid cid).edges =
          g.edges ++ [Edge.mk "REFERS_TO" s t] ∧
        (create_refers_to_relationship g iid cid).nodes = g.nodes)) ∧
    (((matchingIdx g (isReqWithId · rid) = [] ∨ matchingIdx g (isConcWithId · cid) = []) →
        create_is_related_to_relationship g rid cid = g) ∧
      (∀ s t : Nat, matchingIdx g (isReqWithId · rid) = [s] →
        matchingIdx g (isConcWithId · cid) = [t] →
        (create_is_related_to_relationship g rid cid).edges =
          g.edges ++ [Edge.mk "IS_RELATED_TO" s t] ∧
        (create_is_related_to_relationship g rid cid).nodes = g.nodes)) ∧
    (((matchingIdx g (isTechWithId · tid) = [] ∨ matchingIdx g (isConcWithId · cid) = []) →
        create_applies_to_relationship g tid cid = g) ∧
      (∀ s t : Nat, matchingIdx g (isTechWithId · tid) = [s] →
        matchingIdx g (isConcWithId · cid) = [t] →
        (create_applies_to_relationship g tid cid).edges =
          g.edges ++ [Edge.mk "APPLIES_TO" s t] ∧
        (create_applies_to_relationship g tid cid).nodes = g.nodes)) ∧
    (((matchingIdx g (isInstrWithId · iid) = [] ∨ matchingIdx g (isTechWithId · tid) = []) →
        create_suggests_technique_relationship g iid tid = g) ∧
      (∀ s t : Nat, matchingIdx g (isInstrWithId · iid) = [s] →
        matchingIdx g (isTechWithId · tid) = [t] →
        (create_suggests_technique_relationship g iid tid).edges =
          g.edges ++ [Edge.mk "SUGGESTS_TECHNIQUE" s t] ∧
        (create_suggests_technique_relationship g iid tid).nodes = g.nodes)) ∧
    (((matchingIdx g (isReqWithId · rid) = [] ∨ matchingIdx g (isInstrWithId · iid) = []) →
        create_supported_by_relationship g rid iid = g) ∧
      (∀ s t : Nat, matchingIdx g (isReqWithId · rid) = [s] →
        matchingIdx g (isInstrWithId · iid) = [t] →
        (create_supported_by_relationship g rid iid).edges =
          g.edges ++ [Edge.mk "SUPPORTED_BY" s t] ∧
        (create_supported_by_relationship g rid iid).nodes = g.nodes)) :=
  ⟨⟨fun h => createRel_nomatch h, fun _ _ hs ht => ⟨createRel_unique hs ht, rfl⟩⟩,
   ⟨fun h => createRel_nomatch h, fun _ _ hs ht => ⟨createRel_unique hs ht, rfl⟩⟩,
   ⟨fun h => createRel_nomatch h, fun _ _ hs ht => ⟨createRel_unique hs ht, rfl⟩⟩,
   ⟨fun h => createRel_nomatch h, fun _ _ hs ht => ⟨createRel_unique hs ht, rfl⟩⟩,
   ⟨fun h => createRel_nomatch h, fun _ _ hs ht => ⟨createRel_unique hs ht, rfl⟩⟩,
   ⟨fun h => createRel_nomatch h, fun _ _ hs ht => ⟨createRel_unique hs ht, rfl⟩⟩⟩

/-- Witness for C4: in a four-node store, a call naming a missing
requirement identifier is a no-op, and a call naming the unique requirement
and the unique technique appends exactly one `USES_TECHNIQUE` edge. -/
theorem claim_explicit_relationship_soft_failure_witness :
    create_uses_technique_relationship relGraph "REQ_9999" "TECH_001" = relGraph ∧
    (create_uses_technique_relationship relGraph "REQ_0001" "TECH_001").edges =
      relGraph.edges ++ [Edge.mk "USES_TECHNIQUE" 0 1] :=
  ⟨(claim_explicit_relationship_soft_failure relGraph "REQ_9999" "TECH_001" "" "").1.1
     (Or.inl (by decide)),
   ((claim_explicit_relationship_soft_failure relGraph "REQ_0001" "TECH_001" "" "").1.2 0 1
     (by decide) (by decide)).1⟩

/-- Claim C5: each of the four entity-creation operations runs an
unconditional `CREATE`: every call appends exactly one node, and two calls
with the same identifier append two nodes carrying that identifier — the
store enforces no uniqueness and raises no error. -/
theorem claim_entity_creation_append_only (g : GraphState)
    (a b c d e f m : String) (emb : Option (List ℚ)) :
    ((create_requirement (create_requirement g a b c d e f emb m)
        a b c d e f emb m).nodes.length = g.nodes.length + 2 ∧
      countNodes (create_requirement (create_requirement g a b c d e f emb m)
        a b c d e f emb m) (isReqWithId · a) = countNodes g (isReqWithId · a) + 2) ∧
    ((create_technique (create_technique g a b c d e emb m)
        a b c d e emb m).nodes.length = g.nodes.length + 2 ∧
      countNodes (create_technique (create_technique g a b c d e emb m)
        a b c d e emb m) (isTechWithId · a) = countNodes g (isTechWithId · a) + 2) ∧
    ((create_instruction (create_instruction g a b c d emb m)
        a b c d emb m).nodes.length = g.nodes.length + 2 ∧
      countNodes (create_instruction (create_instruction g a b c d emb m)
        a b c d emb m) (isInstrWithId · a) = countNodes g (isInstrWithId · a) + 2) ∧
    ((create_concept (create_concept g a b c d emb m)
        a b c d emb m).nodes.length = g.nodes.length + 2 ∧
      countNodes (create_concept (create_concept g a b c d emb m)
        a b c d emb m) (isConcWithId · a) = countNodes g (isConcWithId · a) + 2) := by
  refine ⟨⟨?_, ?_⟩, ⟨?_, ?_⟩, ⟨?_, ?_⟩, ⟨?_, ?_⟩⟩ <;>
    simp [create_requirement, create_technique, create_instruction, create_concept,
      countNodes, List.filter_append, isReqWithId, isTechWithId, isInstrWithId,
      isConcWithId]

/-- Claim C6: requirement identifiers are deterministic and index-derived:
ingestion after a reset is a function of the row list alone, and the node
created from the n-th (1-based) data row carries the identifier
`REQ_` followed by n zero-padded to four digits — rows are numbered even
when skipped, so the n-th row's node (when created) is always `REQ_{n:04d}`. -/
theorem claim_deterministic_requirement_ids (litEval : String → Option (List ℚ))
    (rows : List Row) (g g' : GraphState) :
    populate_from_csv litEval (clear_database g).1 rows =
      populate_from_csv litEval (clear_database g').1 rows ∧
    (populate_from_csv litEval ⟨[], []⟩ rows).1.nodes.map Node.nodeId =
      (okRowNums litEval rows 1).map (fun n => "REQ_" ++ pad4 n) := by
  constructor
  · rfl
  · rw [show (populate_from_csv litEval ⟨[], []⟩ rows).1.nodes =
        (⟨[], []⟩ : GraphState).nodes ++ csvNodes litEval rows 1 from
        (processRows_spec litEval rows ⟨[], []⟩ 1 0).1]
    simpa using csvNodes_nodeId litEval rows 1

/-- Claim C7: the code evaluated at the failing input.  When the driver
object is constructed but the connection test fails (the unreachable-server
and rejected-credentials cases the claim names), `connect` does report
failure (returns `False`) — but `main` only guards on `graph.driver` being
`None`, so the run does NOT abort before the next stage: `clear_database`
is attempted and its store call raises an unhandled exception.  Only when
the driver constructor itself raises does the run abort with no further
stage attempted. -/
theorem claim_connection_failure_eval :
    (connect ⟨"", "", "", "", none⟩ ConnectOutcome.testFail).2 = false ∧
    ((connect ⟨"", "", "", "", none⟩ ConnectOutcome.testFail).1.driver).isSome = true ∧
    mainRun ConnectOutcome.testFail =
      { stages := [Stage.sConnect, Stage.sClear], crashed := true, closed := true } ∧
    mainRun ConnectOutcome.driverFail =
      { stages := [Stage.sConnect], crashed := false, closed := true } := by
  decide

/-- Claim C8: `clear_database` detach-deletes every node and edge, leaving
the graph empty; invoked on an already-empty graph it succeeds (it is a
total function) with zero deletions. -/
theorem claim_clear_database_empties (g : GraphState) :
    (clear_database g).1.nodes = [] ∧ (clear_database g).1.edges = [] ∧
    clear_database ⟨[], []⟩ = (⟨[], []⟩, 0) :=
  ⟨rfl, rfl, rfl⟩

/-- Claim C9: `close` on a manager that never connected (`driver` is `None`)
is an identity — the `if self.driver` guard skips the driver call — and
closing repeatedly has the same effect as closing once. -/
theorem claim_close_idempotent (m : Neo4jGraphCreator) (u n p d : String) :
    close ⟨u, n, p, d, none⟩ = ⟨u, n, p, d, none⟩ ∧ close (close m) = close m := by
  constructor
  · rfl
  · cases h : m.driver <;> simp [close, h]

/-- Claim C10: every Requirement node appended by `populate_from_csv`
carries the same fixed metadata regardless of the row's content (`type` is
always the hardcoded `'funcional'`, `domain` `'user_story'`, `source`
`'csv_dataset'`, `embedding_model` `'text-embedding-3-small'`), and the
rule engine never rewrites node properties — classification lives only in
the `IS_A` edges it adds. -/
theorem claim_csv_requirement_fixed_metadata (litEval : String → Option (List ℚ))
    (g : GraphState) (rows : List Row) :
    (∀ x ∈ (populate_from_csv litEval g rows).1.nodes, x ∈ g.nodes ∨
      ∃ r : RequirementNode, x = Node.requirement r ∧ r.type = "funcional" ∧
        r.domain = "user_story" ∧ r.source = "csv_dataset" ∧
        r.embedding_model = "text-embedding-3-small") ∧
    (create_smart_relationships g).nodes = g.nodes := by
  constructor
  · intro x hx
    rw [populate_from_csv, (processRows_spec litEval rows g 1 0).1] at hx
    rcases List.mem_append.mp hx with h | h
    · exact Or.inl h
    · exact Or.inr (csvNodes_fixed_metadata litEval rows 1 x h)
  · rfl

/-- Witness for C10: the node ingested from the scenario row is stamped
with the fixed metadata. -/
theorem claim_csv_requirement_fixed_metadata_witness :
    Node.requirement exReq ∈ (⟨[], []⟩ : GraphState).nodes ∨
      ∃ r : RequirementNode, Node.requirement exReq = Node.requirement r ∧
        r.type = "funcional" ∧ r.domain = "user_story" ∧ r.source = "csv_dataset" ∧
        r.embedding_model = "text-embedding-3-small" :=
  (claim_csv_requirement_fixed_metadata litEvalEx ⟨[], []⟩ [goodRow]).1
    (Node.requirement exReq) (by decide)

end GraphCreator
